import Mathlib

/-!
Verification of zpart's partition-table parser and command-validation layer.

The subject is `src/_image_shell.py`: class `PartedShell`, with
  * `__parse_tbl`   (lines 52-107): parse `parted print -m` output,
  * `do_show`       (lines 29-50): display the parsed table,
  * `do_mktbl`      (lines 109-130): validate and emit `mklabel <fmt>`,
  * `do_mkpart`     (lines 138-162): validate and emit `mkpart <type> <start> <end>`,
  * `do_set`        (lines 180-222): validate and emit `set <id> <flag> <state>`,
  * `_ids`          (lines 224-231): partition ids of the current table,
and `ImageShell._is_cache_valid` (lines 381-398, identical in `src/zpart.py`
lines 152-169): the mtime-based cache validity check.

The embedding works over explicit line lists (the Python code splits the
subprocess output into `rawlines` before parsing); Python string helpers
(`strip`, `split`, `rstrip`) are modelled character-list-wise below.
-/

/-- Python `str.strip()` whitespace test for the ASCII whitespace characters
(space, tab, newline, carriage return, vertical tab, form feed).  The Python
original also strips rarer Unicode whitespace; the lines this code meets are
ASCII. -/
def isPySpace (c : Char) : Bool :=
  c == ' ' || c == '\t' || c == '\n' || c == '\r' || c == '\x0b' || c == '\x0c'

/-- Characters satisfying `p` removed from both ends of a character list, as
Python `str.strip(chars)` does. -/
def stripEnds (p : Char → Bool) (l : List Char) : List Char :=
  ((l.dropWhile p).reverse.dropWhile p).reverse

/-- Python `line.strip()`: surrounding whitespace removed. -/
def pyStrip (s : String) : String :=
  String.mk (stripEnds isPySpace s.data)

/-- Python `line.strip(';')`: `;` characters removed from BOTH ends (not only
the trailing one). -/
def stripSemi (s : String) : String :=
  String.mk (stripEnds (· == ';') s.data)

/-- Python `s.rstrip('\n')`: trailing newline characters removed. -/
def rstripNl (s : String) : String :=
  String.mk ((s.data.reverse.dropWhile (· == '\n')).reverse)

/-- Python `s.split(sep)` for a one-character separator, on character lists:
the result always has at least one (possibly empty) field. -/
def splitChars (p : Char → Bool) : List Char → List (List Char)
  | [] => [[]]
  | c :: rest =>
    if p c then [] :: splitChars p rest
    else
      match splitChars p rest with
      | [] => [[c]]
      | g :: gs => (c :: g) :: gs

/-- Python `s.split(sep)` for a one-character separator, on strings. -/
def pySplit (sep : Char) (s : String) : List String :=
  (splitChars (· == sep) s.data).map String.mk

/-- The header row `__parse_tbl` inserts before the partition rows
(src/_image_shell.py line 101). -/
def headerRow : List String :=
  ["id", "start", "end", "length", "filesystem", "type", "flags"]

/-- One line as `__parse_tbl` tokenises it (lines 103-104): strip `;` from the
ends, split on `:`.  The title line (lines 93-94) goes through the same two
steps. -/
def rowOf (l : String) : List String :=
  pySplit ':' (stripSemi l)

/-- First `:`-token of a line, as `_ids` reads it (`x[0]`, line 231).  `rowOf`
never returns `[]`, so the `headD` default is never used. -/
def firstTok (l : String) : String :=
  (rowOf l).headD ""

/-- Final value of `i` after the sentinel scan (src/_image_shell.py lines
82-87): Python's `for i in range(len(rawlines))` that does `i += 1; break` on
the first line whose `strip()` equals `BYT;`.  When the sentinel is first
found at index k the loop leaves i = k+1.  When NO line matches, the loop
runs out and leaves i = len(rawlines) - 1 — not len(rawlines) — so the
`if i >= len(rawlines)` guard on line 90 does not fire and the last line is
then treated as the title line.  On an empty list i keeps its initial 0. -/
def sentinelIdx : List String → Nat
  | [] => 0
  | l :: rest =>
    if pyStrip l = "BYT;" then 1
    else if rest.isEmpty then 0 else 1 + sentinelIdx rest

/-- Outcome of `__parse_tbl` (lines 82-107) on a line list.  `indexError`
models the uncaught `IndexError` that `toks[5]` on line 96 raises when the
chosen title line splits into fewer than 6 `:`-tokens (nothing in the file
catches it); `noneRes` models `return None` (line 91); `res` the returned
list of lists. -/
inductive ParseResult where
  | indexError : ParseResult
  | noneRes : ParseResult
  | res : List (List String) → ParseResult
deriving DecidableEq

/-- Shallow embedding of `__parse_tbl` after the subprocess output has been
split into `rawlines` (line 78 does `.decode().rstrip('\n').split('\n')`).
Line by line: the guard `i >= len(rawlines)` (line 90) returns None; the
title line is `rawlines[i].strip(';')` split on `:` (lines 93-94); building
`data = [[toks[5], toks[1]]]` (line 96) raises IndexError when the token list
is shorter than 6; `i + 1 >= len(rawlines)` (line 98) returns the one-row
data; otherwise the header row plus one split row per remaining line (lines
101-107). -/
def parse_tbl (rawlines : List String) : ParseResult :=
  if rawlines.length ≤ sentinelIdx rawlines then ParseResult.noneRes
  else if (rowOf (rawlines.getD (sentinelIdx rawlines) "")).length < 6 then
    ParseResult.indexError
  else if rawlines.length ≤ sentinelIdx rawlines + 1 then
    ParseResult.res [[(rowOf (rawlines.getD (sentinelIdx rawlines) "")).getD 5 "",
                      (rowOf (rawlines.getD (sentinelIdx rawlines) "")).getD 1 ""]]
  else
    ParseResult.res
      ([[(rowOf (rawlines.getD (sentinelIdx rawlines) "")).getD 5 "",
         (rowOf (rawlines.getD (sentinelIdx rawlines) "")).getD 1 ""], headerRow] ++
       (rawlines.drop (sentinelIdx rawlines + 1)).map rowOf)

/-- `__parse_tbl` on the raw subprocess output text: line 78 splits with
`.rstrip('\n').split('\n')`, then the scan runs. -/
def parse_raw (out : String) : ParseResult :=
  parse_tbl (pySplit '\n' (rstripNl out))

/-- The status taxonomy of the spec's `PartitionTableReport`. -/
inductive TblStatus where
  | unparseable : TblStatus
  | noTable : TblStatus
  | tableOnly : TblStatus
  | tableWithPartitions : TblStatus
deriving DecidableEq

/-- The spec's `PartitionRecord`: one partition row.  The spec field `end` is
a Lean keyword and is rendered `stop`; the other field names are the spec's. -/
structure PartitionRecord where
  id : String
  start : String
  stop : String
  length : String
  filesystem : String
  type : String
  flags : List String
deriving DecidableEq

/-- The spec's `PartitionTableReport`. -/
structure PartitionTableReport where
  status : TblStatus
  format : Option String
  totalSize : Option String
  partitions : List PartitionRecord
deriving DecidableEq

/-- Modelled from the spec: the source never splits the flags token — it keeps
it as one string in the row — while the spec reads it as "a further
space-or-comma-delimited list (parser must tolerate an empty flags token →
empty sequence)".  This view interprets the token per the spec's words. -/
def splitFlags (s : String) : List String :=
  ((splitChars (fun c => c == ' ' || c == ',') s.data).map String.mk).filter (· ≠ "")

/-- A raw row read as the spec's `PartitionRecord`: defined exactly when the
row has the 7 fields `[id, start, end, length, filesystem, type, flags]`. -/
def rowToRecord (row : List String) : Option PartitionRecord :=
  match row with
  | [a, b, c, d, e, f, g] => some ⟨a, b, c, d, e, f, splitFlags g⟩
  | _ => none

/-- The spec's report read off a `__parse_tbl` outcome, following the
correspondence `do_show` (lines 33-50) realises: `None` prints
"Cannot parse image." — the spec's `Unparseable`; `data[0]` holds
`[format, totalSize]`; with fewer than 3 entries there are no partition rows
(`TableOnly`); otherwise `data[2:]` are the rows. -/
def specReportOf : ParseResult → PartitionTableReport
  | ParseResult.indexError => ⟨TblStatus.unparseable, none, none, []⟩
  | ParseResult.noneRes => ⟨TblStatus.unparseable, none, none, []⟩
  | ParseResult.res d =>
    if 3 ≤ d.length then
      ⟨TblStatus.tableWithPartitions, some ((d.headD []).headD ""),
       some (((d.headD []).drop 1).headD ""), (d.drop 2).filterMap rowToRecord⟩
    else
      ⟨TblStatus.tableOnly, some ((d.headD []).headD ""),
       some (((d.headD []).drop 1).headD ""), []⟩

/-- What `do_show` (lines 29-50) prints, as a structured outcome.  `crash`
covers both an exception escaping `__parse_tbl` and the `data[0][1]` access
on a one-element header. -/
inductive ShowOutcome where
  | crash : ShowOutcome
  | cannotParse : ShowOutcome
  | cannotFindTable : ShowOutcome
  | noPartitions (fmt sz : String) : ShowOutcome
  | table (fmt sz : String) (rows : List (List String)) : ShowOutcome
deriving DecidableEq

/-- Shallow embedding of `do_show`: `if not data` prints "Cannot parse
image." (line 34-36, also hit by an empty list); `if not data[0]` prints
"Cannot find partition table." (lines 38-39); then `data[0][0]`/`data[0][1]`
are printed; `len(data) <= 2` prints "Cannot find partitions." (lines 45-47);
otherwise the rows `data[1:]` are tabulated (line 49). -/
def do_show : ParseResult → ShowOutcome
  | ParseResult.indexError => ShowOutcome.crash
  | ParseResult.noneRes => ShowOutcome.cannotParse
  | ParseResult.res d =>
    if d.isEmpty then ShowOutcome.cannotParse
    else
      match d.headD [] with
      | [] => ShowOutcome.cannotFindTable
      | [_] => ShowOutcome.crash
      | f :: sz :: _ =>
        if d.length ≤ 2 then ShowOutcome.noPartitions f sz
        else ShowOutcome.table f sz (d.drop 1)

/-- `__tbl_fmts` (line 109). -/
def tbl_fmts : List String := ["bsd", "dvh", "gpt", "loop", "mac", "msdos", "pc98", "sun"]

/-- `__mkpart_types` (line 138). -/
def mkpart_types : List String := ["primary", "logical", "extended"]

/-- `__part_flags` (lines 169-179). -/
def part_flags : List String :=
  ["boot", "root", "swap", "hidden", "raid", "lvm", "lba", "legacy_boot", "palo"]

/-- The distinct stderr messages the validators write, as structured reasons.
`noPartitionFound` is 'set: no partition found.' (line 200); `idNotFound` is
"set: '{id}' is not one of {ids}." (lines 205-206); the remaining
constructors stand for the other "is not one of" messages. -/
inductive ShellError where
  | noPartitionFound : ShellError
  | idNotFound (id : String) (ids : List String) : ShellError
  | badFlag (flag : String) : ShellError
  | badState (state : String) : ShellError
  | badTblFmt (fmt : String) : ShellError
  | badPartType (ptype : String) : ShellError
deriving DecidableEq

/-- Observable effect of one validator call: the stderr messages written, in
order, and the argument vector handed to `_run_parted_cmd` (line 245), if
any. -/
structure CmdEffect where
  errors : List ShellError
  executed : Option (List String)
deriving DecidableEq

/-- `do_mktbl` (lines 110-130): reject a format outside `__tbl_fmts` and
return; otherwise run `['mklabel', args[0]]`. -/
def do_mktbl (fmt : String) : CmdEffect :=
  if fmt ∈ tbl_fmts then ⟨[], some ["mklabel", fmt]⟩
  else ⟨[ShellError.badTblFmt fmt], none⟩

/-- `do_mkpart` (lines 139-162): reject a type outside `__mkpart_types` and
return; otherwise run `['mkpart', type, args[1], args[2]]` — start and end
pass through unvalidated. -/
def do_mkpart (ptype pstart pend : String) : CmdEffect :=
  if ptype ∈ mkpart_types then ⟨[], some ["mkpart", ptype, pstart, pend]⟩
  else ⟨[ShellError.badPartType ptype], none⟩

/-- `_ids` (lines 224-231) applied to the value `__parse_tbl` returned
(`none` here standing for Python's `None`): `None` unless the data has at
least 3 entries, else `[x[0] for x in data[2:]]`.  Rows produced by the
parser are never empty, so `headD` stands in for `x[0]`. -/
def partIds (data : Option (List (List String))) : Option (List String) :=
  match data with
  | none => none
  | some d => if d.length < 3 then none else some ((d.drop 2).map (·.headD ""))

/-- `do_set` (lines 181-222): `if not ids` — `None` or an empty list — stops
with only 'no partition found' (lines 198-201); otherwise the id, flag and
state checks each append their own message and set `should_stop` (lines
203-217), so all violated constraints are reported together; only when none
failed is `['set', id, flag, state]` run (line 222). -/
def do_set (data : Option (List (List String))) (id flag state : String) : CmdEffect :=
  match partIds data with
  | none => ⟨[ShellError.noPartitionFound], none⟩
  | some ids =>
    if ids.isEmpty then ⟨[ShellError.noPartitionFound], none⟩
    else
      let e1 : List ShellError := if id ∈ ids then [] else [ShellError.idNotFound id ids]
      let e2 : List ShellError := if flag ∈ part_flags then [] else [ShellError.badFlag flag]
      let e3 : List ShellError := if state ∈ ["on", "off"] then [] else [ShellError.badState state]
      if (e1 ++ e2 ++ e3).isEmpty then ⟨[], some ["set", id, flag, state]⟩
      else ⟨e1 ++ e2 ++ e3, none⟩

/-- `_is_cache_valid` (src/_image_shell.py lines 381-398; the same property
body appears in src/zpart.py lines 152-169).  The property reads the file's
current mtime, compares it with the stored `self.__mtime`, and — on a
mismatch — OVERWRITES the stored mtime before returning False.  State is
passed explicitly: the pair is (returned bool, stored mtime afterwards);
mtimes are opaque timestamps compared only for equality. -/
def is_cache_valid (fileMtime storedMtime : Nat) : Bool × Nat :=
  if fileMtime = storedMtime then (true, storedMtime) else (false, fileMtime)

/-! ## Helper lemmas -/

theorem splitChars_ne_nil (p : Char → Bool) (l : List Char) : splitChars p l ≠ [] := by
  induction l with
  | nil => simp [splitChars]
  | cons c rest ih =>
    simp only [splitChars]
    split
    · simp
    · cases h : splitChars p rest <;> simp

theorem rowOf_ne_nil (l : String) : rowOf l ≠ [] := by
  have h := splitChars_ne_nil (· == ':') (stripSemi l).data
  simpa [rowOf, pySplit] using h

theorem partIds_ne_nil (data : Option (List (List String))) (ids : List String)
    (h : partIds data = some ids) : ids ≠ [] := by
  cases data with
  | none => simp [partIds] at h
  | some d =>
    simp only [partIds] at h
    split at h
    · simp at h
    · rename_i hlen
      injection h with h
      subst h
      intro hnil
      have h2 : (d.drop 2).length = 0 := by
        rw [← List.length_map (d.drop 2) (·.headD ""), hnil]
        rfl
      simp [List.length_drop] at h2
      omega

theorem sentinelIdx_sent_head (s : String) (rest : List String)
    (hs : pyStrip s = "BYT;") : sentinelIdx (s :: rest) = 1 := by
  simp [sentinelIdx, hs]

theorem sentinelIdx_append_sent (pre : List String) (s : String)
    (hpre : ∀ l ∈ pre, pyStrip l ≠ "BYT;") (hs : pyStrip s = "BYT;") :
    sentinelIdx (pre ++ [s]) = pre.length + 1 := by
  induction pre with
  | nil => simpa using sentinelIdx_sent_head s [] hs
  | cons a rest ih =>
    have ha : ¬pyStrip a = "BYT;" := hpre a (List.mem_cons_self a rest)
    have hrest := ih (fun l hl => hpre l (List.mem_cons_of_mem a hl))
    have hne : ¬((rest ++ [s]).isEmpty = true) := by simp
    rw [List.cons_append]
    unfold sentinelIdx
    rw [if_neg ha, if_neg hne, hrest]
    simp
    omega

theorem parse_tbl_sentinel_first (s title : String) (parts : List String)
    (hs : pyStrip s = "BYT;") (ht : ¬(rowOf title).length < 6) :
    parse_tbl (s :: title :: parts) =
      if parts.isEmpty then
        ParseResult.res [[(rowOf title).getD 5 "", (rowOf title).getD 1 ""]]
      else
        ParseResult.res ([[(rowOf title).getD 5 "", (rowOf title).getD 1 ""], headerRow] ++
          parts.map rowOf) := by
  have h1 : sentinelIdx (s :: title :: parts) = 1 := sentinelIdx_sent_head _ _ hs
  have hget : (s :: title :: parts).getD 1 "" = title := rfl
  unfold parse_tbl
  rw [h1, hget]
  rw [if_neg (by simp)]
  rw [if_neg ht]
  cases parts with
  | nil => simp
  | cons p ps =>
    rw [if_neg (by simp)]
    simp

/-! ## Claim theorems -/

/-- C1: the claim says that whenever no line trims to the sentinel `BYT;`,
`__parse_tbl` returns `None` (`Unparseable`) regardless of other content.
The scan loop's final index makes the `i >= len(rawlines)` guard unreachable
for sentinel-free non-empty input, so the last line is parsed as a title
line instead: on `["x"]` the code raises an uncaught IndexError and on
`["a:b:c:d:e:f"]` it returns a table report built from garbage — in neither
case the documented `None`. -/
theorem c1_missing_sentinel_eval :
    (∀ l ∈ (["x"] : List String), pyStrip l ≠ "BYT;") ∧
    parse_tbl ["x"] = ParseResult.indexError ∧
    (∀ l ∈ (["a:b:c:d:e:f"] : List String), pyStrip l ≠ "BYT;") ∧
    parse_tbl ["a:b:c:d:e:f"] = ParseResult.res [["f", "b"]] := by
  decide

/-- C2: the claim says a title line with fewer than 6 `:`-tokens yields
`Unparseable` and that parse never terminates with an uncaught error.  On
`["BYT;", "bad"]` the sentinel is found, the title line splits into one
token, and `toks[5]` raises an IndexError that nothing catches. -/
theorem c2_short_title_eval :
    pyStrip "BYT;" = "BYT;" ∧
    (rowOf "bad").length < 6 ∧
    parse_tbl ["BYT;", "bad"] = ParseResult.indexError := by
  decide

/-- C3 counterexample: on the input whose only line is the sentinel, the
claim says parse returns the `NoTable` result, a valid state distinct from
`Unparseable`.  The code instead executes `return` (line 91) — the same
`None` that signals a parse failure — which `do_show` reports as
"Cannot parse image.", not as "Cannot find partition table.". -/
theorem c3_counterexample :
    parse_tbl ["BYT;"] = ParseResult.noneRes ∧
    specReportOf (parse_tbl ["BYT;"]) = ⟨TblStatus.unparseable, none, none, []⟩ ∧
    (specReportOf (parse_tbl ["BYT;"])).status ≠ TblStatus.noTable ∧
    do_show (parse_tbl ["BYT;"]) = ShowOutcome.cannotParse := by
  decide

/-- C3 amended: for every input whose last line (after trimming) is the
sentinel `BYT;`, no earlier line trimming to the sentinel, `__parse_tbl`
returns `None` — the very value that signals `Unparseable` ("Cannot parse
image.") — and no distinct `NoTable` state. -/
theorem c3_amended_unparseable (pre : List String) (s : String)
    (hpre : ∀ l ∈ pre, pyStrip l ≠ "BYT;") (hs : pyStrip s = "BYT;") :
    parse_tbl (pre ++ [s]) = ParseResult.noneRes ∧
    specReportOf (parse_tbl (pre ++ [s])) = ⟨TblStatus.unparseable, none, none, []⟩ ∧
    do_show (parse_tbl (pre ++ [s])) = ShowOutcome.cannotParse := by
  have h := sentinelIdx_append_sent pre s hpre hs
  have hp : parse_tbl (pre ++ [s]) = ParseResult.noneRes := by
    unfold parse_tbl
    rw [h, if_pos (by simp)]
  exact ⟨hp, by rw [hp]; rfl, by rw [hp]; rfl⟩

/-- C3 amended, witnessed at the concrete input `["junk", "BYT;"]`. -/
theorem c3_amended_witness :
    (∀ l ∈ (["junk"] : List String), pyStrip l ≠ "BYT;") ∧ pyStrip "BYT;" = "BYT;" ∧
    parse_tbl (["junk"] ++ ["BYT;"]) = ParseResult.noneRes :=
  ⟨by decide, by decide,
   (c3_amended_unparseable ["junk"] "BYT;" (by decide) (by decide)).1⟩

/-- C4: end-to-end parse of the spec's sample output.  The code-level result
keeps the flags token as the single string `"boot"` (the source never splits
it); read through the spec's record view (`specReportOf`, `splitFlags`), the
report is `TableWithPartitions` with format `"gpt"`, totalSize `"4295MB"`
and one record whose flags list is `["boot"]`. -/
theorem c4_end_to_end :
    parse_raw "BYT;\n/tmp/x.img:4295MB:file:512:512:gpt:;\n1:17.4kB:128MB:128MB::primary:boot;" =
      ParseResult.res [["gpt", "4295MB"], headerRow,
        ["1", "17.4kB", "128MB", "128MB", "", "primary", "boot"]] ∧
    specReportOf (parse_raw "BYT;\n/tmp/x.img:4295MB:file:512:512:gpt:;\n1:17.4kB:128MB:128MB::primary:boot;") =
      ⟨TblStatus.tableWithPartitions, some "gpt", some "4295MB",
        [⟨"1", "17.4kB", "128MB", "128MB", "", "primary", ["boot"]⟩]⟩ := by
  decide

/-- C5: well-formed input — the sentinel, a title line with at least 6
`:`-tokens, and zero or more partition lines.  Zero partition lines give the
one-row result (the spec's `TableOnly`) with format from token 5 and
totalSize from token 1; N > 0 partition lines give exactly N rows after the
header, and `_ids` reads off the first `:`-token of each line, in file
order. -/
theorem c5_well_formed (s title : String) (parts : List String)
    (hs : pyStrip s = "BYT;") (ht : 6 ≤ (rowOf title).length) :
    (parts = [] →
      parse_tbl (s :: title :: parts) =
        ParseResult.res [[(rowOf title).getD 5 "", (rowOf title).getD 1 ""]] ∧
      specReportOf (parse_tbl (s :: title :: parts)) =
        ⟨TblStatus.tableOnly, some ((rowOf title).getD 5 ""),
         some ((rowOf title).getD 1 ""), []⟩) ∧
    (parts ≠ [] → ∃ d,
      parse_tbl (s :: title :: parts) = ParseResult.res d ∧
      d = [[(rowOf title).getD 5 "", (rowOf title).getD 1 ""], headerRow] ++ parts.map rowOf ∧
      (d.drop 2).length = parts.length ∧
      partIds (some d) = some (parts.map firstTok)) := by
  have hp := parse_tbl_sentinel_first s title parts hs (by omega)
  constructor
  · rintro rfl
    simp only [List.isEmpty_nil, if_true] at hp
    refine ⟨hp, ?_⟩
    rw [hp]
    simp [specReportOf]
  · intro h
    have hne : parts.isEmpty = false := by
      cases parts with
      | nil => exact absurd rfl h
      | cons p ps => rfl
    rw [hne] at hp
    simp only [Bool.false_eq_true, if_false] at hp
    refine ⟨_, hp, rfl, by simp, ?_⟩
    have hlen : ¬([[(rowOf title).getD 5 "", (rowOf title).getD 1 ""], headerRow] ++
        parts.map rowOf).length < 3 := by
      cases parts with
      | nil => exact absurd rfl h
      | cons p ps => simp
    simp only [partIds, hlen, if_neg, if_false]
    congr 1
    have hdrop : (([[(rowOf title).getD 5 "", (rowOf title).getD 1 ""], headerRow] ++
        parts.map rowOf).drop 2) = parts.map rowOf := rfl
    rw [hdrop, List.map_map]
    rfl

/-- C5 witnessed at a concrete well-formed input with one partition line. -/
theorem c5_well_formed_witness :
    pyStrip "BYT;" = "BYT;" ∧
    6 ≤ (rowOf "t:1kB:file:512:512:gpt:;").length ∧
    (∃ d, parse_tbl ["BYT;", "t:1kB:file:512:512:gpt:;", "1:a:b:c::primary:;"] =
        ParseResult.res d ∧
      d = [[(rowOf "t:1kB:file:512:512:gpt:;").getD 5 "",
            (rowOf "t:1kB:file:512:512:gpt:;").getD 1 ""], headerRow] ++
          (["1:a:b:c::primary:;"] : List String).map rowOf ∧
      (d.drop 2).length = (["1:a:b:c::primary:;"] : List String).length ∧
      partIds (some d) = some ((["1:a:b:c::primary:;"] : List String).map firstTok)) :=
  ⟨by decide, by decide,
   (c5_well_formed "BYT;" "t:1kB:file:512:512:gpt:;" ["1:a:b:c::primary:;"]
      (by decide) (by decide)).2 (by decide)⟩

/-- C6: `set <id> <flag> <state>` runs — emitting exactly
`['set', id, flag, state]` — iff the current report has partitions, the id
is among the current ids, the flag is one of the 9 names and the state is
on/off.  With no partitions at all the call stops with only the distinct
'no partition found' message; otherwise every violated constraint (bad id,
bad flag, bad state) appears in the messages together. -/
theorem c6_set_flag (data : Option (List (List String))) (id flag state : String) :
    ((do_set data id flag state).executed = some ["set", id, flag, state] ↔
      ∃ ids, partIds data = some ids ∧ id ∈ ids ∧ flag ∈ part_flags ∧
        (state = "on" ∨ state = "off")) ∧
    (partIds data = none →
      do_set data id flag state = ⟨[ShellError.noPartitionFound], none⟩) ∧
    (∀ ids, partIds data = some ids →
      ShellError.noPartitionFound ∉ (do_set data id flag state).errors ∧
      (ShellError.idNotFound id ids ∈ (do_set data id flag state).errors ↔ id ∉ ids) ∧
      (ShellError.badFlag flag ∈ (do_set data id flag state).errors ↔ flag ∉ part_flags) ∧
      (ShellError.badState state ∈ (do_set data id flag state).errors ↔
        ¬(state = "on" ∨ state = "off"))) := by
  cases hd : partIds data with
  | none =>
    refine ⟨?_, fun _ => by simp [do_set, hd], fun ids hids => by simp [hd] at hids⟩
    simp [do_set, hd]
  | some ids =>
    have hne := partIds_ne_nil data ids hd
    have hie : ids.isEmpty = false := by
      cases ids with
      | nil => exact absurd rfl hne
      | cons a l => rfl
    by_cases h1 : id ∈ ids <;> by_cases h2 : flag ∈ part_flags <;>
      by_cases h3 : state ∈ ["on", "off"] <;>
      simp_all [do_set, hd, hie]

/-- C7: `mktbl <fmt>` is rejected iff the format is outside the 8-member
enum, and on success emits exactly `['mklabel', fmt]`; `xfs` is rejected and
`gpt` succeeds. -/
theorem c7_create_table :
    (∀ fmt, (do_mktbl fmt).errors ≠ [] ↔ fmt ∉ tbl_fmts) ∧
    (∀ fmt, (do_mktbl fmt).executed = some ["mklabel", fmt] ↔ fmt ∈ tbl_fmts) ∧
    do_mktbl "xfs" = ⟨[ShellError.badTblFmt "xfs"], none⟩ ∧
    do_mktbl "gpt" = ⟨[], some ["mklabel", "gpt"]⟩ := by
  refine ⟨fun fmt => ?_, fun fmt => ?_, by decide, by decide⟩
  · by_cases h : fmt ∈ tbl_fmts <;> simp [do_mktbl, h]
  · by_cases h : fmt ∈ tbl_fmts <;> simp [do_mktbl, h]

/-- C8: a validation rejection never reaches `_run_parted_cmd`: for each of
the three mutating operations, whenever an error message was written the
executed command is `none`. -/
theorem c8_rejection_no_exec :
    (∀ fmt, (do_mktbl fmt).errors ≠ [] → (do_mktbl fmt).executed = none) ∧
    (∀ ptype pstart pend, (do_mkpart ptype pstart pend).errors ≠ [] →
      (do_mkpart ptype pstart pend).executed = none) ∧
    (∀ data id flag state, (do_set data id flag state).errors ≠ [] →
      (do_set data id flag state).executed = none) := by
  refine ⟨fun fmt h => ?_, fun t a b h => ?_, fun data id flag state h => ?_⟩
  · by_cases hm : fmt ∈ tbl_fmts <;> simp_all [do_mktbl]
  · by_cases hm : t ∈ mkpart_types <;> simp_all [do_mkpart]
  · cases hd : partIds data with
    | none => simp [do_set, hd]
    | some ids =>
      by_cases hie : ids.isEmpty = true
      · simp [do_set, hd, hie]
      · by_cases h1 : id ∈ ids <;> by_cases h2 : flag ∈ part_flags <;>
          by_cases h3 : state ∈ ["on", "off"] <;>
          simp_all [do_set, hd]

/-- C9: querying `_is_cache_valid` with a current mtime different from the
stored one returns False and overwrites the stored mtime; an immediate
second query with the file unchanged then returns True — the check and the
update are conflated, exactly as the spec's open question records. -/
theorem c9_cache_check_update (cur stored : Nat) (h : cur ≠ stored) :
    (is_cache_valid cur stored).1 = false ∧
    (is_cache_valid cur stored).2 = cur ∧
    (is_cache_valid cur (is_cache_valid cur stored).2).1 = true := by
  simp [is_cache_valid, h]

/-- C9 witnessed at mtimes 1 (current) and 0 (stored). -/
theorem c9_cache_witness :
    (1 : Nat) ≠ 0 ∧
    ((is_cache_valid 1 0).1 = false ∧ (is_cache_valid 1 0).2 = 1 ∧
     (is_cache_valid 1 (is_cache_valid 1 0).2).1 = true) :=
  ⟨by decide, c9_cache_check_update 1 0 (by decide)⟩

/-- C10: whenever `__parse_tbl` returns data at all, `data[0]` is the
two-element header `[format, totalSize]`, so `do_show`'s
"Cannot find partition table." branch — guarded by an empty `data[0]` — is
unreachable for every input. -/
theorem c10_header_invariant (lines : List String) :
    (∀ d, parse_tbl lines = ParseResult.res d → ∃ f sz rest, d = [f, sz] :: rest) ∧
    do_show (parse_tbl lines) ≠ ShowOutcome.cannotFindTable := by
  have hshape : ∀ d, parse_tbl lines = ParseResult.res d →
      ∃ f sz rest, d = [f, sz] :: rest := by
    intro d hd
    unfold parse_tbl at hd
    split at hd
    · exact absurd hd (by simp)
    · split at hd
      · exact absurd hd (by simp)
      · split at hd
        · injection hd with h
          exact ⟨_, _, _, h.symm⟩
        · injection hd with h
          exact ⟨_, _, _, h.symm⟩
  refine ⟨hshape, ?_⟩
  cases hp : parse_tbl lines with
  | indexError => simp [do_show]
  | noneRes => simp [do_show]
  | res d =>
    obtain ⟨f, sz, rest, rfl⟩ := hshape d hp
    show (if ([f, sz] :: rest).length ≤ 2 then ShowOutcome.noPartitions f sz
          else ShowOutcome.table f sz (([f, sz] :: rest).drop 1)) ≠
        ShowOutcome.cannotFindTable
    split <;> simp
